import Mathlib

/-!
Verification of `tester.py` from PZWorkshopInspector.

The program is an interactive client loop: it reads lines from standard
input, strips each line, and either exits (stripped line lowercases to
"exit"), re-prompts (stripped line empty), or POSTs the stripped line as
the `url` form field to `http://localhost:4567/analyze`, printing the
response or an error.

Shallow embedding, translated from the source:

* Console output and network calls become an explicit `Event` trace.
  `Event.prompt` records one call of `input("URL: ")`; `Event.post a f v`
  records one invocation of `requests.post(a, data={f: v})`;
  `Event.print s` records `print(s)`.
* The network is an oracle `net : Nat → HttpResult` giving the outcome of
  the k-th `requests.post` invocation: either a response (status code and
  body text) or a raised exception carrying its textual description.
  Exceptions are modelled as arising from the HTTP call, the only
  genuinely fallible statement inside the `try` block of
  `send_url_to_server`.
* `input()` returns successive elements of a finite list of lines (already
  newline-free, as in Python). When the list is exhausted, `input()`
  raises `EOFError`; that call sits outside any `try`, so the loop ends
  with `ExitKind.eof` (exception propagates) rather than `ExitKind.exited`
  (the `break` after "exit").
* Python `str.strip()` / `str.lower()` are modelled character-exactly on
  the ASCII range (`pyStrip`, `pyLower`); whitespace and case mappings of
  code points above U+00FF, irrelevant here, are elided.
-/

namespace Tester

/-- Characters removed by Python `str.strip()` with no argument: the ASCII
whitespace characters space, tab, LF, VT, FF, CR, the separators
U+001C..U+001F and U+0085. (Further Unicode whitespace is elided.) -/
def isPySpace (c : Char) : Bool :=
  c = ' ' || ('\t' ≤ c && c ≤ '\r') ||
    (Char.ofNat 28 ≤ c && c ≤ Char.ofNat 31) || c = Char.ofNat 133

/-- Python `str.strip()`: remove leading and trailing whitespace. -/
def pyStrip (s : String) : String :=
  String.mk (((s.data.dropWhile isPySpace).reverse.dropWhile isPySpace).reverse)

/-- Python `str.lower()` on the ASCII range: map capital letters to the
corresponding small letters, leave everything else unchanged. -/
def pyLower (s : String) : String :=
  String.mk (s.data.map Char.toLower)

/-- Outcome of one `requests.post` invocation, supplied by the network
oracle: either a response with its status code and body text, or an
exception carrying its textual description (`str(e)`). -/
inductive HttpResult where
  | ok (statusCode : Nat) (text : String)
  | exn (msg : String)
deriving DecidableEq

/-- One observable step of the program: a call of `input("URL: ")`, an
invocation of `requests.post` with its address, form-field name and
form-field value, or a `print` of one line. -/
inductive Event where
  | prompt
  | post (addr field value : String)
  | print (line : String)
deriving DecidableEq

/-- How the loop of `main` ends: `exited` is the `break` taken after an
"exit" input; `eof` is an `EOFError` raised by `input()` on exhausted
standard input, which no handler catches. -/
inductive ExitKind where
  | exited
  | eof
deriving DecidableEq

/-- The hardcoded endpoint of `requests.post` in `send_url_to_server`. -/
def analyzeURL : String := "http://localhost:4567/analyze"

/-- The delimiter line `"-" * 40` printed around a 200 response body. -/
def dashes40 : String := String.mk (List.replicate 40 '-')

/-- The message printed for a non-200 status code (line 13 of the source):
`f"Error occurred while sending the request. Response code: {...}"`. -/
def statusErrMsg (code : Nat) : String :=
  "Error occurred while sending the request. Response code: " ++ toString code

/-- The message printed by the catch-all handler (line 15 of the source):
`f"An error occurred: {e}"`. -/
def exnErrMsg (msg : String) : String :=
  "An error occurred: " ++ msg

/-- `send_url_to_server(url)` of `tester.py`, lines 3-15, with the outcome
of its `requests.post` call supplied by `r`. The leading `Event.post`
records the invocation of `requests.post` itself; the prints follow the
branching of the source: status 200 prints the four-line response block,
any other status prints the status-code error, a raised exception is
caught and its description printed. -/
def send_url_to_server (url : String) (r : HttpResult) : List Event :=
  Event.post analyzeURL "url" url ::
  match r with
  | .ok code text =>
      if code = 200 then
        [Event.print "Server Response:", Event.print dashes40,
         Event.print (pyStrip text), Event.print dashes40]
      else
        [Event.print (statusErrMsg code)]
  | .exn msg => [Event.print (exnErrMsg msg)]

/-- The `while True` loop of `main` (lines 20-28): read a line (prompting
first), strip it, break on "exit", send a non-empty line, otherwise ask
again. `k` counts `requests.post` invocations made so far, indexing the
oracle. An empty input list makes `input()` raise `EOFError`: the prompt
was shown, no handler catches the exception, the loop ends with `eof`. -/
def mainLoop (net : Nat → HttpResult) : List String → Nat → List Event × ExitKind
  | [], _ => ([Event.prompt], ExitKind.eof)
  | line :: rest, k =>
      let url := pyStrip line
      if pyLower url = "exit" then
        ([Event.prompt, Event.print "Exiting..."], ExitKind.exited)
      else if url ≠ "" then
        let t := mainLoop net rest (k + 1)
        (Event.prompt :: (send_url_to_server url (net k) ++ t.1), t.2)
      else
        let t := mainLoop net rest k
        (Event.prompt :: Event.print "Please enter a valid URL." :: t.1, t.2)

/-- `main()` of `tester.py`, lines 17-28: the greeting print followed by
the loop. -/
def main (net : Nat → HttpResult) (inputs : List String) : List Event × ExitKind :=
  let t := mainLoop net inputs 0
  (Event.print "Enter a URL to analyze (or type \x27exit\x27 to quit):" :: t.1, t.2)

/-- Recognise the network events of a trace. -/
def isPost : Event → Bool
  | .post _ _ _ => true
  | _ => false

/-- The network events of a trace, in order. -/
def postsOf (evs : List Event) : List Event :=
  evs.filter isPost

/-- The printed lines of a trace, in order. -/
def printsOf (evs : List Event) : List String :=
  evs.filterMap fun e =>
    match e with
    | .print s => some s
    | _ => none

/-- The four printed lines of a 200 response whose stripped body is `b`. -/
def okBlockLines (b : String) : List String :=
  ["Server Response:", dashes40, b, dashes40]

/-- A print trace consisting of exactly one 200 response block. -/
def isOkBlockPrint (ps : List String) : Prop :=
  ∃ b, ps = okBlockLines b

/-- A print trace consisting of exactly one status-code error line. -/
def isStatusErrPrint (ps : List String) : Prop :=
  ∃ c : Nat, ps = [statusErrMsg c]

/-- A print trace consisting of exactly one caught-exception error line. -/
def isExnErrPrint (ps : List String) : Prop :=
  ∃ m : String, ps = [exnErrMsg m]

/-- The two-state machine named by the specification: `Terminated` is
reached exactly by an input whose stripped form lowercases to "exit", and
is absorbing; every other input keeps the state `AwaitingInput`. -/
inductive LoopState where
  | awaitingInput
  | terminated
deriving DecidableEq

/-- One transition of the two-state machine of the specification. -/
def stepState (s : LoopState) (line : String) : LoopState :=
  match s with
  | .terminated => .terminated
  | .awaitingInput =>
      if pyLower (pyStrip line) = "exit" then .terminated else .awaitingInput

end Tester

namespace Tester

lemma postsOf_send (u : String) (r : HttpResult) :
    postsOf (send_url_to_server u r) = [Event.post analyzeURL "url" u] := by
  cases r with
  | ok code text =>
    by_cases h : code = 200 <;>
      simp [send_url_to_server, postsOf, isPost, h]
  | exn m => simp [send_url_to_server, postsOf, isPost]

lemma printsOf_send_ok200 (u text : String) :
    printsOf (send_url_to_server u (.ok 200 text)) = okBlockLines (pyStrip text) := by
  simp [send_url_to_server, printsOf, okBlockLines]

lemma printsOf_send_okOther (u : String) (c : Nat) (t : String) (h : c ≠ 200) :
    printsOf (send_url_to_server u (.ok c t)) = [statusErrMsg c] := by
  simp [send_url_to_server, printsOf, h]

lemma printsOf_send_exn (u m : String) :
    printsOf (send_url_to_server u (.exn m)) = [exnErrMsg m] := by
  simp [send_url_to_server, printsOf]

lemma statusErrMsg_ne_exnErrMsg (c : Nat) (m : String) :
    statusErrMsg c ≠ exnErrMsg m := by
  intro h
  have h2 : (statusErrMsg c).data.head? = (exnErrMsg m).data.head? := by rw [h]
  rw [statusErrMsg, exnErrMsg] at h2
  simp only [String.data_append, List.head?_append] at h2
  have e1 : ("Error occurred while sending the request. Response code: " : String).data.head?
      = some 'E' := rfl
  have e2 : ("An error occurred: " : String).data.head? = some 'A' := rfl
  rw [e1, e2] at h2
  simp [Option.or] at h2

lemma mainLoop_exit (net : Nat → HttpResult) (line : String) (rest : List String) (k : Nat)
    (h : pyLower (pyStrip line) = "exit") :
    mainLoop net (line :: rest) k = ([Event.prompt, Event.print "Exiting..."], ExitKind.exited) := by
  simp [mainLoop, h]

lemma mainLoop_send (net : Nat → HttpResult) (line : String) (rest : List String) (k : Nat)
    (h1 : pyLower (pyStrip line) ≠ "exit") (h2 : pyStrip line ≠ "") :
    mainLoop net (line :: rest) k =
      (Event.prompt :: (send_url_to_server (pyStrip line) (net k) ++ (mainLoop net rest (k + 1)).1),
       (mainLoop net rest (k + 1)).2) := by
  simp [mainLoop, h1, h2]

lemma mainLoop_emptyLine (net : Nat → HttpResult) (line : String) (rest : List String) (k : Nat)
    (h : pyStrip line = "") :
    mainLoop net (line :: rest) k =
      (Event.prompt :: Event.print "Please enter a valid URL." :: (mainLoop net rest k).1,
       (mainLoop net rest k).2) := by
  have hx : ¬pyLower "" = "exit" := by decide
  simp [mainLoop, h, hx]

lemma foldl_stepState_terminated (l : List String) :
    l.foldl stepState LoopState.terminated = LoopState.terminated := by
  induction l with
  | nil => rfl
  | cons a l ih => simpa [stepState] using ih

end Tester

namespace Tester

/-- A network oracle on which every `requests.post` invocation raises a
connection error. Used to instantiate theorems at concrete inputs. -/
def netExn : Nat → HttpResult := fun _ => HttpResult.exn "connection refused"

/-- A network oracle on which every `requests.post` invocation returns
status 200 with body "ok". Used to instantiate theorems at concrete
inputs. -/
def netOk : Nat → HttpResult := fun _ => HttpResult.ok 200 "ok"

lemma postsOf_append (a b : List Event) :
    postsOf (a ++ b) = postsOf a ++ postsOf b := by
  simp [postsOf, List.filter_append]

lemma postsOf_prompt_cons (l : List Event) :
    postsOf (Event.prompt :: l) = postsOf l := by
  simp [postsOf, isPost]

/-- Claim C1, counterexample: on the input line " a " (raw line with
surrounding spaces), exactly one POST is issued and its `url` field value
is the stripped string "a"; no POST carries the raw operator-supplied
string " a ". The claim as stated (field value equals the raw string)
is therefore false. -/
theorem c1_raw_value_counterexample :
    postsOf (mainLoop netExn [" a "] 0).1 = [Event.post analyzeURL "url" "a"] ∧
    Event.post analyzeURL "url" " a " ∉ (mainLoop netExn [" a "] 0).1 := by
  constructor
  · decide
  · decide

/-- Claim C1 (amended): for every input line whose trimmed form is
non-empty and does not case-insensitively equal "exit", exactly one HTTP
POST request is issued to `http://localhost:4567/analyze` with a single
form field named `url` whose value is the operator-supplied string with
surrounding whitespace removed. -/
theorem c1_one_post_trimmed_value (net : Nat → HttpResult) (line : String)
    (rest : List String) (k : Nat)
    (h1 : pyLower (pyStrip line) ≠ "exit") (h2 : pyStrip line ≠ "") :
    (mainLoop net (line :: rest) k).1 =
      Event.prompt ::
        (send_url_to_server (pyStrip line) (net k) ++ (mainLoop net rest (k + 1)).1) ∧
    postsOf (send_url_to_server (pyStrip line) (net k)) =
      [Event.post analyzeURL "url" (pyStrip line)] := by
  refine ⟨?_, postsOf_send _ _⟩
  rw [mainLoop_send net line rest k h1 h2]

/-- Claim C1, witness: the amended theorem instantiated at the line
"http://example.com" with a failing network. -/
theorem c1_one_post_trimmed_value_witness :
    (mainLoop netExn ["http://example.com"] 0).1 =
      Event.prompt ::
        (send_url_to_server (pyStrip "http://example.com") (netExn 0) ++
          (mainLoop netExn [] 1).1) ∧
    postsOf (send_url_to_server (pyStrip "http://example.com") (netExn 0)) =
      [Event.post analyzeURL "url" (pyStrip "http://example.com")] :=
  c1_one_post_trimmed_value netExn "http://example.com" [] 0 (by decide) (by decide)

/-- Claim C2: when the k-th `requests.post` invocation raises an
exception, the iteration prints exactly the catch-all message carrying the
description of the failure, and the remaining trace and the way the loop
ends are exactly those of the loop run on the remaining input: the error
is contained in its iteration and never terminates the loop. -/
theorem c2_exception_contained (net : Nat → HttpResult) (line : String)
    (rest : List String) (k : Nat) (msg : String)
    (h1 : pyLower (pyStrip line) ≠ "exit") (h2 : pyStrip line ≠ "")
    (hx : net k = HttpResult.exn msg) :
    (mainLoop net (line :: rest) k).1 =
      Event.prompt :: Event.post analyzeURL "url" (pyStrip line) ::
        Event.print (exnErrMsg msg) :: (mainLoop net rest (k + 1)).1 ∧
    (mainLoop net (line :: rest) k).2 = (mainLoop net rest (k + 1)).2 := by
  rw [mainLoop_send net line rest k h1 h2]
  simp [send_url_to_server, hx]

/-- Claim C2, witness: a connection failure on "http://x" followed by the
input "exit"; the failure is printed and the loop still ends via the exit
branch of the remaining input. -/
theorem c2_exception_contained_witness :
    (mainLoop netExn ["http://x", "exit"] 0).1 =
      Event.prompt :: Event.post analyzeURL "url" (pyStrip "http://x") ::
        Event.print (exnErrMsg "connection refused") :: (mainLoop netExn ["exit"] 1).1 ∧
    (mainLoop netExn ["http://x", "exit"] 0).2 = (mainLoop netExn ["exit"] 1).2 :=
  c2_exception_contained netExn "http://x" ["exit"] 0 "connection refused"
    (by decide) (by decide) (by decide)

/-- Claim C3: an input whose trimmed form case-insensitively equals "exit"
makes the iteration print the farewell message and end the loop normally,
and the whole trace contains no POST event. -/
theorem c3_exit_no_request (net : Nat → HttpResult) (line : String)
    (rest : List String) (k : Nat)
    (h : pyLower (pyStrip line) = "exit") :
    mainLoop net (line :: rest) k =
      ([Event.prompt, Event.print "Exiting..."], ExitKind.exited) ∧
    postsOf (mainLoop net (line :: rest) k).1 = [] := by
  have e := mainLoop_exit net line rest k h
  refine ⟨e, ?_⟩
  rw [e]
  decide

/-- Claim C3, witness: the theorem instantiated at the input "EXIT". -/
theorem c3_exit_no_request_witness :
    mainLoop netOk ["EXIT"] 0 =
      ([Event.prompt, Event.print "Exiting..."], ExitKind.exited) ∧
    postsOf (mainLoop netOk ["EXIT"] 0).1 = [] :=
  c3_exit_no_request netOk "EXIT" [] 0 (by decide)

end Tester

namespace Tester

/-- Claim C4: the loop realises the two-state machine of the
specification: it ends via the exit branch exactly when running the
machine from `AwaitingInput` over the inputs reaches `Terminated`, i.e.
exactly when some input has stripped form lowercasing to "exit"; on any
input list without such a line the loop never takes the exit branch. -/
theorem c4_two_state_machine (net : Nat → HttpResult) (inputs : List String) (k : Nat) :
    (mainLoop net inputs k).2 = ExitKind.exited ↔
      inputs.foldl stepState LoopState.awaitingInput = LoopState.terminated := by
  induction inputs generalizing k with
  | nil => simp [mainLoop]
  | cons line rest ih =>
    by_cases h : pyLower (pyStrip line) = "exit"
    · rw [mainLoop_exit net line rest k h]
      simp [stepState, h, foldl_stepState_terminated]
    · by_cases h2 : pyStrip line = ""
      · rw [mainLoop_emptyLine net line rest k h2]
        simp [stepState, h, ih]
      · rw [mainLoop_send net line rest k h h2]
        simp [stepState, h, ih]

/-- Claim C5: a 200 response makes `send_url_to_server` print, after the
heading, a delimiter line of 40 dashes, the response body with leading and
trailing whitespace removed, and a matching delimiter line; in particular
the body "  Result: safe  " is printed as "Result: safe". -/
theorem c5_ok200_block (u text : String) :
    send_url_to_server u (HttpResult.ok 200 text) =
      [Event.post analyzeURL "url" u, Event.print "Server Response:",
       Event.print dashes40, Event.print (pyStrip text), Event.print dashes40] ∧
    (dashes40.data.length = 40 ∧ ∀ c ∈ dashes40.data, c = '-') ∧
    pyStrip "  Result: safe  " = "Result: safe" := by
  refine ⟨by simp [send_url_to_server], by decide, by decide⟩

/-- Claim C6: a response with a status code other than 200 makes
`send_url_to_server` print exactly one line, the error message carrying
the numeric status code; the trace is the same whatever the response body,
so the body is discarded. -/
theorem c6_non200_status (u : String) (code : Nat) (text : String)
    (h : code ≠ 200) :
    send_url_to_server u (HttpResult.ok code text) =
      [Event.post analyzeURL "url" u,
       Event.print
         ("Error occurred while sending the request. Response code: " ++ toString code)] ∧
    (∀ t2 : String,
      send_url_to_server u (HttpResult.ok code t2) =
        send_url_to_server u (HttpResult.ok code text)) := by
  constructor
  · simp [send_url_to_server, statusErrMsg, h]
  · intro t2
    simp [send_url_to_server, h]

/-- Claim C6, witness: the theorem instantiated at status code 404. -/
theorem c6_non200_status_witness :
    send_url_to_server "http://x" (HttpResult.ok 404 "body") =
      [Event.post analyzeURL "url" "http://x",
       Event.print
         ("Error occurred while sending the request. Response code: " ++ toString 404)] ∧
    (∀ t2 : String,
      send_url_to_server "http://x" (HttpResult.ok 404 t2) =
        send_url_to_server "http://x" (HttpResult.ok 404 "body")) :=
  c6_non200_status "http://x" 404 "body" (by decide)

/-- Claim C7: an input whose trimmed form is empty makes the iteration
print the retry message and nothing else; the loop continues on the
remaining input unchanged, and the whole trace has exactly the POST events
of the loop on the remaining input, so the empty input issues none. -/
theorem c7_empty_input (net : Nat → HttpResult) (line : String)
    (rest : List String) (k : Nat)
    (h : pyStrip line = "") :
    (mainLoop net (line :: rest) k).1 =
      Event.prompt :: Event.print "Please enter a valid URL." :: (mainLoop net rest k).1 ∧
    (mainLoop net (line :: rest) k).2 = (mainLoop net rest k).2 ∧
    postsOf (mainLoop net (line :: rest) k).1 = postsOf (mainLoop net rest k).1 := by
  have e := mainLoop_emptyLine net line rest k h
  rw [e]
  refine ⟨rfl, rfl, ?_⟩
  simp [postsOf, isPost]

/-- Claim C7, witness: the theorem instantiated at the whitespace line
"   " followed by "exit". -/
theorem c7_empty_input_witness :
    (mainLoop netOk ["   ", "exit"] 0).1 =
      Event.prompt :: Event.print "Please enter a valid URL." ::
        (mainLoop netOk ["exit"] 0).1 ∧
    (mainLoop netOk ["   ", "exit"] 0).2 = (mainLoop netOk ["exit"] 0).2 ∧
    postsOf (mainLoop netOk ["   ", "exit"] 0).1 = postsOf (mainLoop netOk ["exit"] 0).1 :=
  c7_empty_input netOk "   " ["exit"] 0 (by decide)

end Tester

namespace Tester

/-- Claim C8: the printed lines of every `send_url_to_server` call form
exactly one outcome: a 200 response block, a status-code error line, or a
caught-exception error line — one of the three shapes holds and the other
two fail. -/
theorem c8_single_outcome (u : String) (r : HttpResult) :
    (isOkBlockPrint (printsOf (send_url_to_server u r)) ∧
      ¬isStatusErrPrint (printsOf (send_url_to_server u r)) ∧
      ¬isExnErrPrint (printsOf (send_url_to_server u r))) ∨
    (¬isOkBlockPrint (printsOf (send_url_to_server u r)) ∧
      isStatusErrPrint (printsOf (send_url_to_server u r)) ∧
      ¬isExnErrPrint (printsOf (send_url_to_server u r))) ∨
    (¬isOkBlockPrint (printsOf (send_url_to_server u r)) ∧
      ¬isStatusErrPrint (printsOf (send_url_to_server u r)) ∧
      isExnErrPrint (printsOf (send_url_to_server u r))) := by
  cases r with
  | ok code text =>
    by_cases h : code = 200
    · subst h
      left
      rw [printsOf_send_ok200]
      refine ⟨⟨pyStrip text, rfl⟩, ?_, ?_⟩
      · rintro ⟨c, hc⟩
        simp [okBlockLines] at hc
      · rintro ⟨m, hm⟩
        simp [okBlockLines] at hm
    · right; left
      rw [printsOf_send_okOther u code text h]
      refine ⟨?_, ⟨code, rfl⟩, ?_⟩
      · rintro ⟨b, hb⟩
        simp [okBlockLines] at hb
      · rintro ⟨m, hm⟩
        simp only [List.cons.injEq, and_true] at hm
        exact statusErrMsg_ne_exnErrMsg code m hm
  | exn m =>
    right; right
    rw [printsOf_send_exn]
    refine ⟨?_, ?_, ⟨m, rfl⟩⟩
    · rintro ⟨b, hb⟩
      simp [okBlockLines] at hb
    · rintro ⟨c, hc⟩
      simp only [List.cons.injEq, and_true] at hc
      exact statusErrMsg_ne_exnErrMsg c m hc.symm

/-- Claim C9: for every input line that results in a request, the value of
the `url` form field of the first POST of the run is the input line with
leading and trailing whitespace removed — the strip applied before the
exit and emptiness checks also determines what is sent. -/
theorem c9_sends_trimmed (net : Nat → HttpResult) (line : String)
    (rest : List String) (k : Nat)
    (h1 : pyLower (pyStrip line) ≠ "exit") (h2 : pyStrip line ≠ "") :
    postsOf (mainLoop net (line :: rest) k).1 =
      Event.post analyzeURL "url" (pyStrip line) :: postsOf (mainLoop net rest (k + 1)).1 := by
  rw [mainLoop_send net line rest k h1 h2, postsOf_prompt_cons, postsOf_append,
    postsOf_send]
  rfl

/-- Claim C9, witness: the theorem instantiated at the line " http://u "
typed with surrounding spaces; the POST carries the stripped value. -/
theorem c9_sends_trimmed_witness :
    postsOf (mainLoop netOk [" http://u "] 0).1 =
      Event.post analyzeURL "url" (pyStrip " http://u ") :: postsOf (mainLoop netOk [] 1).1 :=
  c9_sends_trimmed netOk " http://u " [] 0 (by decide) (by decide)

/-- Claim C10: on an input list without any exit line, the loop ends with
the uncaught `EOFError` of `input()` — not through the farewell branch —
and its last event is the prompt at which `input()` raised: the catch-all
handler inside `send_url_to_server` does not cover the read of the next
line. -/
theorem c10_eof_uncaught (net : Nat → HttpResult) (inputs : List String) :
    ∀ k : Nat, (∀ l ∈ inputs, pyLower (pyStrip l) ≠ "exit") →
      (mainLoop net inputs k).2 = ExitKind.eof ∧
      ∃ pre : List Event, (mainLoop net inputs k).1 = pre ++ [Event.prompt] := by
  induction inputs with
  | nil =>
    intro k _
    exact ⟨rfl, [], rfl⟩
  | cons line rest ih =>
    intro k h
    have hl : pyLower (pyStrip line) ≠ "exit" := h line (by simp)
    have hrest : ∀ l ∈ rest, pyLower (pyStrip l) ≠ "exit" :=
      fun l hm => h l (by simp [hm])
    by_cases h2 : pyStrip line = ""
    · rw [mainLoop_emptyLine net line rest k h2]
      obtain ⟨he, pre, hp⟩ := ih k hrest
      refine ⟨he, Event.prompt :: Event.print "Please enter a valid URL." :: pre, ?_⟩
      simp [hp]
    · rw [mainLoop_send net line rest k hl h2]
      obtain ⟨he, pre, hp⟩ := ih (k + 1) hrest
      refine ⟨he, Event.prompt :: (send_url_to_server (pyStrip line) (net k) ++ pre), ?_⟩
      simp [hp]

/-- Claim C10, witness: the theorem instantiated at the single non-exit
input "a" with stdin then exhausted. -/
theorem c10_eof_uncaught_witness :
    (mainLoop netOk ["a"] 0).2 = ExitKind.eof ∧
    ∃ pre : List Event, (mainLoop netOk ["a"] 0).1 = pre ++ [Event.prompt] :=
  c10_eof_uncaught netOk ["a"] 0 (by decide)

end Tester
